import Mathlib

/-!
Verification development for the Fréchet Audio Distance (FAD) core in
src/model/fad.py.

The numerical code is shallowly embedded over exact rationals (ℚ); matrices
are lists of rows.  The external pieces are modelled as oracles passed to the
embedded functions:

* scipy.linalg.sqrtm is an oracle of type RMat → NPMat.  An NPMat is the
  numpy array the caller sees: real- or complex-typed (np.iscomplexobj tests
  the dtype, not the values), together with a Boolean recording whether all
  entries are IEEE-finite (infinities and NaNs have no counterpart in ℚ, so
  the oracle reports the outcome of np.isfinite(·).all() itself).
* the VGGish embedder (self.model.forward) is an oracle β → RMat returning one
  2-D block of embedding rows per input item;
* resampy.resample / np.mean preprocessing in the list comprehensions of
  score and calculate_embd_statistics_background is an oracle α → β;
* torch.load / torch.save / os.path.exists are modelled as a key-value store
  threaded through the functions (an association list from paths to the saved
  statistics).

Python exceptions are modelled with Except PyError; the error taxonomy of the
specification is mapped onto the concrete exceptions the source raises.
-/

namespace FADModel

/-- Row vector of rationals: a 1-D numpy float array, exact arithmetic. -/
abbrev RVec := List ℚ

/-- Matrix as a list of rows: a 2-D numpy float array. -/
abbrev RMat := List (List ℚ)

/-- A complex scalar with rational real and imaginary parts. -/
structure CQ where
  re : ℚ
  im : ℚ
deriving DecidableEq, Repr

/-- Complex matrix as a list of rows. -/
abbrev CMat := List (List CQ)

/-- The numpy array returned by scipy.linalg.sqrtm, as the calling code sees
it: real-typed or complex-typed (np.iscomplexobj inspects the dtype), plus
whether every entry is IEEE-finite — np.isfinite(·).all() — which over ℚ has
to be an attribute reported by the oracle, since ℚ has no inf/NaN. -/
inductive NPMat where
  | real (m : RMat) (finite : Bool)
  | cplx (m : CMat) (finite : Bool)
deriving DecidableEq, Repr

/-- Models np.isfinite(covmean).all(). -/
def npFiniteAll : NPMat → Bool
  | .real _ f => f
  | .cplx _ f => f

/-- Python exceptions raised by the source, labelled with the error taxonomy
of the specification (§7). -/
inductive PyError where
  /-- AssertionError from the two shape asserts in calculate_frechet_distance;
  the specification calls this ShapeMismatchError. -/
  | shapeMismatch (msg : String)
  /-- ValueError('Imaginary component {m}') in calculate_frechet_distance;
  the specification calls this NumericalError.  Carries
  np.max(np.abs(covmean.imag)). -/
  | numericalError (m : ℚ)
  /-- ValueError('need at least one array to concatenate') raised by
  np.concatenate on an empty sequence in get_embeddings. -/
  | concatEmpty
  /-- TypeError('cannot unpack non-iterable int object') raised in score when
  calculate_embd_statistics_background returns the -1 sentinel and score
  unpacks it into (mu_background, sigma_background). -/
  | unpackTypeError
deriving DecidableEq, Repr

/-! Basic numpy-style linear algebra over ℚ. -/

/-- Dot product of two vectors (np.dot on 1-D arrays). -/
def dotQ (v w : RVec) : ℚ := (List.zipWith (· * ·) v w).sum

/-- Transpose of a rectangular matrix (ndarray.T). -/
def transposeQ : RMat → RMat
  | [] => []
  | [] :: _ => []
  | (x :: xs) :: rss =>
    (x :: rss.map (fun r => r.headD 0)) :: transposeQ (xs :: rss.map (fun r => r.tail))
termination_by m => (m.headD []).length
decreasing_by simp

/-- Matrix product (ndarray.dot on 2-D arrays). -/
def matMul (A B : RMat) : RMat :=
  A.map (fun row => (transposeQ B).map (fun col => dotQ row col))

/-- Elementwise matrix sum (numpy +). -/
def matAdd (A B : RMat) : RMat := List.zipWith (List.zipWith (· + ·)) A B

/-- np.eye(n) * eps : the n×n matrix with eps on the diagonal. -/
def eyeQ (n : Nat) (eps : ℚ) : RMat :=
  (List.range n).map (fun i => (List.range n).map (fun j => if i = j then eps else 0))

/-- Main diagonal of a real matrix.  On a rectangular matrix with more rows
than columns this pads with zeros past column exhaustion, so its sum agrees
with np.trace (which stops at min(rows, cols)) on every rectangular matrix. -/
def diagQ : RMat → RVec
  | [] => []
  | row :: rest => row.headD 0 :: diagQ (rest.map (fun r => r.tail))
termination_by m => m.length
decreasing_by simp

/-- np.trace: sum of the main diagonal. -/
def traceQ (m : RMat) : ℚ := (diagQ m).sum

/-- np.diagonal of a complex matrix; as with diagQ, rows past column
exhaustion contribute zero entries, which satisfy every tolerance check that
np.allclose against 0 performs on the true (shorter) diagonal. -/
def diagC : CMat → List CQ
  | [] => []
  | row :: rest => row.headD ⟨0, 0⟩ :: diagC (rest.map (fun r => r.tail))
termination_by m => m.length
decreasing_by simp

/-- Models np.allclose(np.diagonal(covmean).imag, 0, atol=1e-3): every
diagonal imaginary part has absolute value at most 1e-3 (rtol contributes
nothing against the literal 0). -/
def allcloseImagDiag (m : CMat) : Bool :=
  (diagC m).all (fun c => decide (|c.im| ≤ 1/1000))

/-- Models np.max(np.abs(covmean.imag)) over all entries (the matrix is
nonempty whenever the source evaluates this). -/
def maxAbsImag (m : CMat) : ℚ :=
  ((m.map (fun row => row.map (fun c => |c.im|))).flatten).foldr max 0

/-- covmean.real : real parts of a complex matrix. -/
def cRealPart (m : CMat) : RMat := m.map (fun row => row.map (fun c => c.re))

/-! Numpy array shapes and promotion.  Per the data model (§3) a mean
argument is a 0-D or 1-D array and a covariance argument is a 0-D, 1-D or
2-D array; the promotion functions below are np.atleast_1d / np.atleast_2d
restricted to those ranks. -/

/-- A mean argument: 0-D (scalar) or 1-D numpy array. -/
inductive NDVec where
  | scalar (x : ℚ)
  | vec (v : RVec)
deriving DecidableEq, Repr

/-- A covariance argument: 0-D, 1-D or 2-D numpy array (np.cov squeezes a 1×1
result down to 0-D). -/
inductive NDArr where
  | scalar (x : ℚ)
  | vec (v : RVec)
  | mat (m : RMat)
deriving DecidableEq, Repr

/-- np.atleast_1d on a mean argument: a 0-D scalar becomes a length-1 vector,
a 1-D array is unchanged. -/
def atleast_1d : NDVec → RVec
  | .scalar x => [x]
  | .vec v => v

/-- np.atleast_2d on a covariance argument: a 0-D scalar becomes a 1×1
matrix, a 1-D array of length n becomes a 1×n matrix, a 2-D array is
unchanged. -/
def atleast_2d : NDArr → RMat
  | .scalar x => [[x]]
  | .vec v => [v]
  | .mat m => m

/-- Shape of a (rectangular) 2-D array: (rows, columns). -/
def matShape (m : RMat) : Nat × Nat := (m.length, (m.headD []).length)

/-! The Fréchet distance calculator: FAD.calculate_frechet_distance,
src/model/fad.py lines 58–112, transliterated.  eps is the keyword argument
(default 1e-6 at the call sites); sqrtm is the scipy.linalg.sqrtm oracle. -/

/-- Embedding of FAD.calculate_frechet_distance.  Mirrors the source: promote
the means with np.atleast_1d and the covariances with np.atleast_2d, assert
equal shapes, take sqrtm of the covariance product, retry once with an
eps-offset on the diagonal if the result has non-finite entries, validate the
imaginary residue of a complex-typed result, and return
diff·diff + tr(sigma1) + tr(sigma2) - 2·tr(covmean). -/
def calculate_frechet_distance (sqrtm : RMat → NPMat) (mu1 : NDVec)
    (sigma1 : NDArr) (mu2 : NDVec) (sigma2 : NDArr) (eps : ℚ) :
    Except PyError ℚ :=
  let mu1' := atleast_1d mu1
  let mu2' := atleast_1d mu2
  let sigma1' := atleast_2d sigma1
  let sigma2' := atleast_2d sigma2
  if mu1'.length ≠ mu2'.length then
    .error (.shapeMismatch "Training and test mean vectors have different lengths")
  else if matShape sigma1' ≠ matShape sigma2' then
    .error (.shapeMismatch "Training and test covariances have different dimensions")
  else
    let diff := List.zipWith (fun a b => a - b) mu1' mu2'
    let covmean0 := sqrtm (matMul sigma1' sigma2')
    let covmean :=
      if npFiniteAll covmean0 = false then
        let offset := eyeQ sigma1'.length eps
        sqrtm (matMul (matAdd sigma1' offset) (matAdd sigma2' offset))
      else covmean0
    let covmeanReal : Except PyError RMat :=
      match covmean with
      | .cplx m _ =>
        if allcloseImagDiag m = false then
          .error (.numericalError (maxAbsImag m))
        else
          .ok (cRealPart m)
      | .real m _ => .ok m
    match covmeanReal with
    | .error e => .error e
    | .ok cm =>
      let tr_covmean := traceQ cm
      .ok (dotQ diff diff + traceQ sigma1' + traceQ sigma2' - 2 * tr_covmean)

/-! The statistics estimator: FAD.calculate_embd_statistics, src/model/fad.py
lines 51–56. -/

/-- np.mean(embd_lst, axis=0): columnwise arithmetic mean. -/
def npMeanAxis0 (m : RMat) : RVec :=
  (transposeQ m).map (fun col => col.sum / (col.length : ℚ))

/-- np.squeeze applied by np.cov to its result: a 1×1 covariance matrix (one
variable) collapses to a 0-D scalar; anything else is returned as a matrix. -/
def npSqueeze (m : RMat) : NDArr :=
  match m with
  | [[x]] => .scalar x
  | _ => .mat m

/-- np.cov(embd_lst, rowvar=False): unbiased sample covariance over the
columns (each row one observation, divisor N-1), squeezed.  For N = 1 numpy
divides by zero and produces NaN entries; over ℚ the division yields 0 — a
boundary the specification (§4.2) requires callers to avoid, and no claim
touches it. -/
def npCov (m : RMat) : NDArr :=
  let n : ℚ := (m.length : ℚ)
  let cols := transposeQ m
  let cent := cols.map (fun c => c.map (fun x => x - c.sum / n))
  npSqueeze (cent.map (fun ci =>
    cent.map (fun cj => (List.zipWith (· * ·) ci cj).sum / (n - 1))))

/-- Embedding of FAD.calculate_embd_statistics: the mean vector and the
(squeezed) covariance of an embedding matrix.  The isinstance(list) branch of
the source only converts a Python list to an array; the input here is already
the array. -/
def calculate_embd_statistics (embd_lst : RMat) : RVec × NDArr :=
  (npMeanAxis0 embd_lst, npCov embd_lst)

/-! The embedding batch collector: FAD.get_embeddings, src/model/fad.py lines
35–49.  The VGGish model is the oracle embed : β → RMat returning the 2-D
block of embedding rows for one input. -/

/-- np.concatenate(·, axis=0) on a list of 2-D blocks: raises
ValueError('need at least one array to concatenate') on an empty list,
otherwise stacks the blocks. -/
def np_concatenate (ls : List RMat) : Except PyError RMat :=
  if ls.isEmpty then .error .concatEmpty else .ok ls.flatten

/-- Embedding of FAD.get_embeddings: run the embedder over every item (the
tqdm wrapper only displays progress) and concatenate the per-item blocks. -/
def get_embeddings {β : Type} (embed : β → RMat) (x : List β) :
    Except PyError RMat :=
  np_concatenate (x.map embed)

/-! The statistics cache and orchestrator: FAD.calculate_embd_statistics_background
(lines 115–127) and FAD.score (lines 130–146).  torch.save / torch.load /
os.path.exists act on one persisted slot; they are modelled as an association
list from paths to the saved (mean, covariance) pairs, threaded through. -/

/-- A persisted (mean, covariance) pair, what torch.save writes. -/
abbrev GaussianStats := RVec × NDArr

/-- The persistence medium: paths with a saved statistics object. -/
abbrev Store := List (String × GaussianStats)

/-- Lookup of a path in the store: os.path.exists / torch.load combined. -/
def lookupStore : Store → String → Option GaussianStats
  | [], _ => none
  | (k, v) :: rest, key => if k = key then some v else lookupStore rest key

/-- os.path.join for the paths the source uses. -/
def pathJoin (a b : String) : String :=
  if a = "" then b else if a.endsWith "/" then a ++ b else a ++ "/" ++ b

/-- Result of calculate_embd_statistics_background: either the -1 sentinel
(empty background embeddings, printed and returned, never persisted) or a
statistics pair. -/
inductive BgRet where
  | minusOne
  | stats (s : GaussianStats)
deriving DecidableEq, Repr

/-- Embedding of FAD.calculate_embd_statistics_background.  prep is the
per-item preprocessing of the list comprehension (resampy.resample + np.mean,
external); embed the VGGish oracle; store the persistence medium; save_path
the directory argument (default ".tmp/" in the source).  Returns the result
together with the updated store. -/
def calculate_embd_statistics_background {α β : Type} (prep : α → β)
    (embed : β → RMat) (background : List α) (store : Store)
    (save_path : String) : Except PyError (BgRet × Store) :=
  let save_path' := pathJoin save_path "background_statistics.ptc"
  match lookupStore store save_path' with
  | some st => .ok (.stats st, store)
  | none =>
    match get_embeddings embed (background.map prep) with
    | .error e => .error e
    | .ok embds_background =>
      if embds_background.length = 0 then
        .ok (.minusOne, store)
      else
        let background_statistics := calculate_embd_statistics embds_background
        .ok (.stats background_statistics,
             (save_path', background_statistics) :: store)

/-- Embedding of FAD.score: collect evaluation embeddings, return -1 if there
are none, obtain background statistics through the cache (unpacking the
result — a TypeError if the sentinel -1 comes back), estimate evaluation
statistics and compute the Fréchet distance with the default eps = 1e-6.
Returns the score together with the updated store. -/
def score {α β : Type} (prep : α → β) (embed : β → RMat)
    (sqrtm : RMat → NPMat) (background : List α) (store : Store)
    (evaluation : List α) : Except PyError (ℚ × Store) :=
  match get_embeddings embed (evaluation.map prep) with
  | .error e => .error e
  | .ok embds_eval =>
    if embds_eval.length = 0 then
      .ok (-1, store)
    else
      match calculate_embd_statistics_background prep embed background store ".tmp/" with
      | .error e => .error e
      | .ok (.minusOne, _) => .error .unpackTypeError
      | .ok (.stats (mu_background, sigma_background), store') =>
        let (mu_eval, sigma_eval) := calculate_embd_statistics embds_eval
        match calculate_frechet_distance sqrtm (.vec mu_background)
            sigma_background (.vec mu_eval) sigma_eval (1/1000000) with
        | .error e => .error e
        | .ok fad_score => .ok (fad_score, store')

/-! Specification-side decompositions of calculate_frechet_distance, used to
state the claims about its covmean selection and its final formula.  They are
separate definitions; the theorems below prove the monolithic transliteration
equal to their composition. -/

/-- The covmean the source ends up using (lines 93–100): the square root of
the covariance product, or — when that has non-finite entries — the square
root recomputed once with the eps offset added to both covariances. -/
def selectedCovmean (sqrtm : RMat → NPMat) (eps : ℚ) (s1 s2 : RMat) : NPMat :=
  let covmean0 := sqrtm (matMul s1 s2)
  if npFiniteAll covmean0 = false then
    let offset := eyeQ s1.length eps
    sqrtm (matMul (matAdd s1 offset) (matAdd s2 offset))
  else covmean0

/-- The real matrix the trace is finally taken of, when the complex-residue
validation passes: a real-typed covmean unchanged, a complex-typed covmean
with small diagonal imaginary part stripped to its real component. -/
def realView : NPMat → Option RMat
  | .real m _ => some m
  | .cplx m _ => if allcloseImagDiag m then some (cRealPart m) else none

/-- Everything the source does after covmean is fixed (lines 102–112):
complex-residue validation, then the closed-form value.  Note it contains no
finiteness check — the retried covmean is consumed as is. -/
def finishCovmean (diff : RVec) (s1 s2 : RMat) : NPMat → Except PyError ℚ
  | .cplx m _ =>
    if allcloseImagDiag m = false then .error (.numericalError (maxAbsImag m))
    else .ok (dotQ diff diff + traceQ s1 + traceQ s2 - 2 * traceQ (cRealPart m))
  | .real m _ => .ok (dotQ diff diff + traceQ s1 + traceQ s2 - 2 * traceQ m)

/-- Tests whether a run ended in the shape-mismatch precondition violation. -/
def isShapeErr : Except PyError ℚ → Bool
  | .error (.shapeMismatch _) => true
  | _ => false

/-! Concrete sqrtm oracles used by witnesses: pinned values of
scipy.linalg.sqrtm on the specific matrices the witnesses feed it. -/

/-- Oracle pinning sqrtm [[4,0],[0,0]] = [[2,0],[0,0]] (the principal square
root of that diagonal matrix, real and finite), arbitrary elsewhere. -/
def sqrtmC2 : RMat → NPMat :=
  fun m => if m = [[4, 0], [0, 0]] then .real [[2, 0], [0, 0]] true else .real m true

/-- Oracle whose first result on [[0]] has non-finite entries, triggering the
recovery path; finite real elsewhere. -/
def sqrtmNonFin : RMat → NPMat :=
  fun m => if m = [[0]] then .real [[0]] false else .real m true

/-- Oracle returning a complex-typed result with a large imaginary part. -/
def sqrtmCplxBig : RMat → NPMat := fun _ => .cplx [[⟨2, 5⟩]] true

/-- Oracle returning a complex-typed result whose imaginary part is within
the 1e-3 tolerance. -/
def sqrtmCplxSmall : RMat → NPMat := fun _ => .cplx [[⟨2, 1/2000⟩]] true

/-! Shared lemmas about the distance calculator. -/

/-- Decomposition: under matching (promoted) shapes the transliterated
calculate_frechet_distance is the covmean selection (lines 93–100) followed
by the residue validation and the closed-form value (lines 102–112). -/
theorem frechet_eq_finish (sqrtm : RMat → NPMat) (eps : ℚ) (mu1 : NDVec)
    (sigma1 : NDArr) (mu2 : NDVec) (sigma2 : NDArr)
    (hmu : (atleast_1d mu1).length = (atleast_1d mu2).length)
    (hs : matShape (atleast_2d sigma1) = matShape (atleast_2d sigma2)) :
    calculate_frechet_distance sqrtm mu1 sigma1 mu2 sigma2 eps =
      finishCovmean
        (List.zipWith (fun a b => a - b) (atleast_1d mu1) (atleast_1d mu2))
        (atleast_2d sigma1) (atleast_2d sigma2)
        (selectedCovmean sqrtm eps (atleast_2d sigma1) (atleast_2d sigma2)) := by
  simp only [calculate_frechet_distance, selectedCovmean, finishCovmean]
  rw [if_neg (by simp [hmu]), if_neg (by simp [hs])]
  cases hE : (if npFiniteAll (sqrtm (matMul (atleast_2d sigma1) (atleast_2d sigma2))) = false
      then sqrtm (matMul (matAdd (atleast_2d sigma1) (eyeQ (atleast_2d sigma1).length eps))
        (matAdd (atleast_2d sigma2) (eyeQ (atleast_2d sigma1).length eps)))
      else sqrtm (matMul (atleast_2d sigma1) (atleast_2d sigma2))) with
  | real m f => rfl
  | cplx m f =>
    by_cases hc : allcloseImagDiag m = false <;> simp [hc]

/-- When the selected covmean passes the residue validation with real view
cm, the run succeeds with the closed-form value taken at cm. -/
theorem frechet_ok_of_realView (sqrtm : RMat → NPMat) (eps : ℚ) (mu1 : NDVec)
    (sigma1 : NDArr) (mu2 : NDVec) (sigma2 : NDArr) (cm : RMat)
    (hmu : (atleast_1d mu1).length = (atleast_1d mu2).length)
    (hs : matShape (atleast_2d sigma1) = matShape (atleast_2d sigma2))
    (hcm : realView (selectedCovmean sqrtm eps (atleast_2d sigma1)
      (atleast_2d sigma2)) = some cm) :
    calculate_frechet_distance sqrtm mu1 sigma1 mu2 sigma2 eps =
      .ok (dotQ (List.zipWith (fun a b => a - b) (atleast_1d mu1) (atleast_1d mu2))
            (List.zipWith (fun a b => a - b) (atleast_1d mu1) (atleast_1d mu2))
          + traceQ (atleast_2d sigma1) + traceQ (atleast_2d sigma2)
          - 2 * traceQ cm) := by
  rw [frechet_eq_finish sqrtm eps mu1 sigma1 mu2 sigma2 hmu hs]
  cases hE : selectedCovmean sqrtm eps (atleast_2d sigma1) (atleast_2d sigma2) with
  | real m f =>
    rw [hE] at hcm
    simp only [realView, Option.some.injEq] at hcm
    subst hcm
    rfl
  | cplx m f =>
    rw [hE] at hcm
    simp only [realView] at hcm
    split at hcm
    · next hall =>
      simp only [Option.some.injEq] at hcm
      subst hcm
      simp [finishCovmean, hall]
    · exact absurd hcm (by simp)

/-- The shape-mismatch error can only come from the two asserts: once the
covmean stage is reached no run produces it. -/
theorem isShapeErr_finishCovmean (diff : RVec) (s1 s2 : RMat) (c : NPMat) :
    isShapeErr (finishCovmean diff s1 s2 c) = false := by
  cases c with
  | real m f => rfl
  | cplx m f =>
    by_cases hc : allcloseImagDiag m = false <;> simp [finishCovmean, hc, isShapeErr]

/-- The squared norm of a componentwise difference is symmetric in the two
vectors. -/
theorem dot_sub_symm (a b : RVec) :
    dotQ (List.zipWith (fun x y => x - y) a b) (List.zipWith (fun x y => x - y) a b)
      = dotQ (List.zipWith (fun x y => x - y) b a) (List.zipWith (fun x y => x - y) b a) := by
  induction a generalizing b with
  | nil => cases b <;> rfl
  | cons x xs ih =>
    cases b with
    | nil => rfl
    | cons y ys =>
      simp only [List.zipWith_cons_cons, dotQ, List.sum_cons] at ih ⊢
      have h := ih ys
      nlinarith [h]

/-! Claim theorems. -/

/-- C1: for all mean vectors and covariance matrices of matching (promoted)
shapes for which the selected covmean is finite and real, or complex with its
imaginary part legitimately discarded (realView = some cm), the value
returned by calculate_frechet_distance equals
dot(diff, diff) + trace(sigma1) + trace(sigma2) - 2 * trace(covmean), where
diff = mu1 - mu2 and covmean is the square root of sigma1·sigma2 after the
recovery step if taken. -/
theorem C1_final_distance_formula (sqrtm : RMat → NPMat) (eps : ℚ)
    (mu1 : NDVec) (sigma1 : NDArr) (mu2 : NDVec) (sigma2 : NDArr) (cm : RMat)
    (hmu : (atleast_1d mu1).length = (atleast_1d mu2).length)
    (hs : matShape (atleast_2d sigma1) = matShape (atleast_2d sigma2))
    (hcm : realView (selectedCovmean sqrtm eps (atleast_2d sigma1)
      (atleast_2d sigma2)) = some cm) :
    calculate_frechet_distance sqrtm mu1 sigma1 mu2 sigma2 eps =
      .ok (dotQ (List.zipWith (fun a b => a - b) (atleast_1d mu1) (atleast_1d mu2))
            (List.zipWith (fun a b => a - b) (atleast_1d mu1) (atleast_1d mu2))
          + traceQ (atleast_2d sigma1) + traceQ (atleast_2d sigma2)
          - 2 * traceQ cm) :=
  frechet_ok_of_realView sqrtm eps mu1 sigma1 mu2 sigma2 cm hmu hs hcm

/-- Witness for C1 at the end-to-end statistics of the specification, with
the sqrtm oracle pinned to the principal square root of [[4,0],[0,0]]. -/
theorem C1_final_distance_formula_witness :
    calculate_frechet_distance sqrtmC2 (.vec [1, 0]) (.mat [[2, 0], [0, 0]])
      (.vec [1, 2]) (.mat [[2, 0], [0, 0]]) (1/1000000) =
      .ok (dotQ (List.zipWith (fun a b => a - b) (atleast_1d (.vec [1, 0]))
              (atleast_1d (.vec [1, 2])))
            (List.zipWith (fun a b => a - b) (atleast_1d (.vec [1, 0]))
              (atleast_1d (.vec [1, 2])))
          + traceQ (atleast_2d (.mat [[2, 0], [0, 0]]))
          + traceQ (atleast_2d (.mat [[2, 0], [0, 0]]))
          - 2 * traceQ [[2, 0], [0, 0]]) :=
  C1_final_distance_formula sqrtmC2 (1/1000000) (.vec [1, 0])
    (.mat [[2, 0], [0, 0]]) (.vec [1, 2]) (.mat [[2, 0], [0, 0]])
    [[2, 0], [0, 0]] (by decide) (by decide)
    (by norm_num [selectedCovmean, realView, sqrtmC2, matMul, transposeQ, dotQ,
          npFiniteAll, atleast_2d])

/-- C2: on the concrete batches background = [[0,0],[2,0]] and evaluation =
[[0,2],[2,2]], calculate_embd_statistics returns means [1,0] and [1,2] and
covariance [[2,0],[0,0]] for both, and calculate_frechet_distance on those
statistics returns exactly 4, for any sqrtm oracle agreeing with the
principal square root on the product [[4,0],[0,0]]. -/
theorem C2_end_to_end_example (sqrtm : RMat → NPMat) (eps : ℚ)
    (hsq : sqrtm [[4, 0], [0, 0]] = .real [[2, 0], [0, 0]] true) :
    calculate_embd_statistics [[0, 0], [2, 0]] = ([1, 0], .mat [[2, 0], [0, 0]])
    ∧ calculate_embd_statistics [[0, 2], [2, 2]] = ([1, 2], .mat [[2, 0], [0, 0]])
    ∧ calculate_frechet_distance sqrtm (.vec [1, 0]) (.mat [[2, 0], [0, 0]])
        (.vec [1, 2]) (.mat [[2, 0], [0, 0]]) eps = .ok 4 := by
  refine ⟨?_, ?_, ?_⟩
  · norm_num [calculate_embd_statistics, npMeanAxis0, npCov, npSqueeze, transposeQ]
  · norm_num [calculate_embd_statistics, npMeanAxis0, npCov, npSqueeze, transposeQ]
  · have h := frechet_ok_of_realView sqrtm eps (.vec [1, 0]) (.mat [[2, 0], [0, 0]])
      (.vec [1, 2]) (.mat [[2, 0], [0, 0]]) [[2, 0], [0, 0]] (by decide) (by decide)
      (by norm_num [selectedCovmean, realView, matMul, transposeQ, dotQ, hsq,
            npFiniteAll, atleast_2d])
    rw [h]
    norm_num [dotQ, traceQ, diagQ, atleast_1d, atleast_2d]

/-- Witness for C2 with the pinned oracle and the default eps. -/
theorem C2_end_to_end_example_witness :
    calculate_embd_statistics [[0, 0], [2, 0]] = ([1, 0], .mat [[2, 0], [0, 0]])
    ∧ calculate_embd_statistics [[0, 2], [2, 2]] = ([1, 2], .mat [[2, 0], [0, 0]])
    ∧ calculate_frechet_distance sqrtmC2 (.vec [1, 0]) (.mat [[2, 0], [0, 0]])
        (.vec [1, 2]) (.mat [[2, 0], [0, 0]]) (1/1000000) = .ok 4 :=
  C2_end_to_end_example sqrtmC2 (1/1000000) (by decide)

/-- C3: evidence against the claim that score returns the EMPTY sentinel (-1)
on an empty evaluation sequence or an empty background set.  In the source,
np.concatenate on the empty embedding list raises ValueError before the
emptiness check is reached (first two conjuncts: empty evaluation, then empty
uncached background); and even on the sentinel path the background sentinel
-1 is unpacked into two variables by score, a TypeError (third conjunct, an
embedder producing zero rows for the background item). -/
theorem C3_empty_sets_raise :
    score (fun b : Bool => b) (fun b : Bool => if b then [[(1:ℚ)]] else [])
      (fun m => .real m true) ([] : List Bool) [] [] = .error .concatEmpty
    ∧ score (fun b : Bool => b) (fun b : Bool => if b then [[(1:ℚ)]] else [])
      (fun m => .real m true) ([] : List Bool) [] [true] = .error .concatEmpty
    ∧ score (fun b : Bool => b) (fun b : Bool => if b then [[(1:ℚ)]] else [])
      (fun m => .real m true) [false] [] [true] = .error .unpackTypeError := by
  refine ⟨rfl, rfl, rfl⟩

/-- C4: under matching (promoted) shapes, the run is exactly the covmean
selection followed by the residue validation and final formula (first
conjunct, for every sqrtm oracle — including those whose retried result still
has non-finite entries, so the retried result is consumed with no further
finiteness check and no second recovery); when the first square root has
non-finite entries the selected covmean is the square root of the product of
the eps-offset covariances (second conjunct), and when it is finite no
recovery happens (third conjunct). -/
theorem C4_singular_recovery_once (sqrtm : RMat → NPMat) (eps : ℚ)
    (mu1 : NDVec) (sigma1 : NDArr) (mu2 : NDVec) (sigma2 : NDArr)
    (hmu : (atleast_1d mu1).length = (atleast_1d mu2).length)
    (hs : matShape (atleast_2d sigma1) = matShape (atleast_2d sigma2)) :
    calculate_frechet_distance sqrtm mu1 sigma1 mu2 sigma2 eps =
      finishCovmean
        (List.zipWith (fun a b => a - b) (atleast_1d mu1) (atleast_1d mu2))
        (atleast_2d sigma1) (atleast_2d sigma2)
        (selectedCovmean sqrtm eps (atleast_2d sigma1) (atleast_2d sigma2))
    ∧ (npFiniteAll (sqrtm (matMul (atleast_2d sigma1) (atleast_2d sigma2))) = false →
        selectedCovmean sqrtm eps (atleast_2d sigma1) (atleast_2d sigma2) =
          sqrtm (matMul
            (matAdd (atleast_2d sigma1) (eyeQ (atleast_2d sigma1).length eps))
            (matAdd (atleast_2d sigma2) (eyeQ (atleast_2d sigma1).length eps))))
    ∧ (npFiniteAll (sqrtm (matMul (atleast_2d sigma1) (atleast_2d sigma2))) = true →
        selectedCovmean sqrtm eps (atleast_2d sigma1) (atleast_2d sigma2) =
          sqrtm (matMul (atleast_2d sigma1) (atleast_2d sigma2))) := by
  refine ⟨frechet_eq_finish sqrtm eps mu1 sigma1 mu2 sigma2 hmu hs, ?_, ?_⟩
  · intro hfin
    simp [selectedCovmean, hfin]
  · intro hfin
    simp [selectedCovmean, hfin]

/-- Witness for C4 with an oracle whose first result on the product [[0]] has
non-finite entries: the selected covmean is the retried square root. -/
theorem C4_singular_recovery_once_witness :
    selectedCovmean sqrtmNonFin (1/1000000) (atleast_2d (.mat [[0]]))
      (atleast_2d (.mat [[0]])) =
      sqrtmNonFin (matMul
        (matAdd (atleast_2d (.mat [[0]]))
          (eyeQ (atleast_2d (.mat [[0]])).length (1/1000000)))
        (matAdd (atleast_2d (.mat [[0]]))
          (eyeQ (atleast_2d (.mat [[0]])).length (1/1000000)))) :=
  (C4_singular_recovery_once sqrtmNonFin (1/1000000) (.vec [0]) (.mat [[0]])
    (.vec [0]) (.mat [[0]]) (by decide) (by decide)).2.1
    (by norm_num [sqrtmNonFin, matMul, transposeQ, dotQ, atleast_2d, npFiniteAll])

/-- C5: when the covmean the run settled on is complex-typed, the run fails
with NumericalError carrying the maximum absolute imaginary magnitude of the
whole covmean whenever the diagonal imaginary part is not within absolute
tolerance 1e-3, and otherwise succeeds using only the real component for the
trace. -/
theorem C5_complex_residue_validation (sqrtm : RMat → NPMat) (eps : ℚ)
    (mu1 : NDVec) (sigma1 : NDArr) (mu2 : NDVec) (sigma2 : NDArr)
    (m : CMat) (f : Bool)
    (hmu : (atleast_1d mu1).length = (atleast_1d mu2).length)
    (hs : matShape (atleast_2d sigma1) = matShape (atleast_2d sigma2))
    (hsel : selectedCovmean sqrtm eps (atleast_2d sigma1) (atleast_2d sigma2) =
      .cplx m f) :
    (allcloseImagDiag m = false →
      calculate_frechet_distance sqrtm mu1 sigma1 mu2 sigma2 eps =
        .error (.numericalError (maxAbsImag m)))
    ∧ (allcloseImagDiag m = true →
      calculate_frechet_distance sqrtm mu1 sigma1 mu2 sigma2 eps =
        .ok (dotQ (List.zipWith (fun a b => a - b) (atleast_1d mu1) (atleast_1d mu2))
              (List.zipWith (fun a b => a - b) (atleast_1d mu1) (atleast_1d mu2))
            + traceQ (atleast_2d sigma1) + traceQ (atleast_2d sigma2)
            - 2 * traceQ (cRealPart m))) := by
  constructor <;> intro hall <;>
    rw [frechet_eq_finish sqrtm eps mu1 sigma1 mu2 sigma2 hmu hs, hsel] <;>
    simp [finishCovmean, hall]

/-- Witness for C5 with an oracle returning a complex covmean with imaginary
part 5 on the diagonal, beyond tolerance: the reported magnitude is 5. -/
theorem C5_complex_residue_validation_witness :
    calculate_frechet_distance sqrtmCplxBig (.vec [0]) (.mat [[1]])
      (.vec [0]) (.mat [[1]]) (1/1000000) =
      .error (.numericalError (maxAbsImag [[⟨2, 5⟩]])) :=
  (C5_complex_residue_validation sqrtmCplxBig (1/1000000) (.vec [0])
    (.mat [[1]]) (.vec [0]) (.mat [[1]]) [[⟨2, 5⟩]] true (by decide) (by decide)
    rfl).1
    (by norm_num [allcloseImagDiag, diagC, decide_eq_false_iff_not])

/-- C6: whenever the promoted means have different lengths, or the promoted
covariances have different shapes, calculate_frechet_distance fails with the
ShapeMismatchError precondition violation and computes no distance. -/
theorem C6_shape_mismatch_raises (sqrtm : RMat → NPMat) (eps : ℚ)
    (mu1 : NDVec) (sigma1 : NDArr) (mu2 : NDVec) (sigma2 : NDArr)
    (h : (atleast_1d mu1).length ≠ (atleast_1d mu2).length ∨
         matShape (atleast_2d sigma1) ≠ matShape (atleast_2d sigma2)) :
    ∃ msg, calculate_frechet_distance sqrtm mu1 sigma1 mu2 sigma2 eps =
      .error (.shapeMismatch msg) := by
  by_cases h1 : (atleast_1d mu1).length = (atleast_1d mu2).length
  · rcases h with h2 | h2
    · exact absurd h1 h2
    · refine ⟨"Training and test covariances have different dimensions", ?_⟩
      simp only [calculate_frechet_distance]
      rw [if_neg (by simp [h1]), if_pos h2]
  · refine ⟨"Training and test mean vectors have different lengths", ?_⟩
    simp only [calculate_frechet_distance]
    rw [if_pos h1]

/-- Witness for C6: mean vectors of lengths 1 and 2. -/
theorem C6_shape_mismatch_raises_witness :
    ∃ msg, calculate_frechet_distance sqrtmC2 (.vec [1]) (.mat [[1]])
      (.vec [1, 2]) (.mat [[1]]) (1/1000000) = .error (.shapeMismatch msg) :=
  C6_shape_mismatch_raises sqrtmC2 (1/1000000) (.vec [1]) (.mat [[1]])
    (.vec [1, 2]) (.mat [[1]]) (Or.inl (by decide))

/-- C7: the caching contract of calculate_embd_statistics_background.  If a
statistics object is persisted at the location, it is loaded and returned
with no computation and no store change (first conjunct — the result does not
depend on the embedder or the background at all, both being universally
quantified and absent from the result).  Otherwise the computation runs and
its result is persisted at the location and returned (second conjunct).
Afterwards any repeated call against the same location — with any embedder
and any background — takes the load path, so the computation runs at most
once per location (third conjunct). -/
theorem C7_cache_memoization {α β : Type} (prep : α → β) (embed : β → RMat)
    (background : List α) (store : Store) (dir : String) :
    (∀ st, lookupStore store (pathJoin dir "background_statistics.ptc") = some st →
      calculate_embd_statistics_background prep embed background store dir =
        .ok (.stats st, store))
    ∧ (∀ embds, lookupStore store (pathJoin dir "background_statistics.ptc") = none →
        get_embeddings embed (background.map prep) = .ok embds →
        embds.length ≠ 0 →
        calculate_embd_statistics_background prep embed background store dir =
          .ok (.stats (calculate_embd_statistics embds),
            (pathJoin dir "background_statistics.ptc",
              calculate_embd_statistics embds) :: store))
    ∧ (∀ (prep2 : α → β) (embed2 : β → RMat) (bg2 : List α) (st : GaussianStats),
        calculate_embd_statistics_background prep2 embed2 bg2
          ((pathJoin dir "background_statistics.ptc", st) :: store) dir =
          .ok (.stats st,
            (pathJoin dir "background_statistics.ptc", st) :: store)) := by
  refine ⟨?_, ?_, ?_⟩
  · intro st h
    simp [calculate_embd_statistics_background, h]
  · intro embds h hge hlen
    simp [calculate_embd_statistics_background, h, hge, hlen]
  · intro prep2 embed2 bg2 st
    simp [calculate_embd_statistics_background, lookupStore]

/-- Witness for C7: a store already holding statistics at the cache location
is read back unchanged, with an embedder that would compute something else. -/
theorem C7_cache_memoization_witness :
    calculate_embd_statistics_background (fun u : Unit => u)
      (fun _ : Unit => [[1]]) [()]
      [(pathJoin ".tmp/" "background_statistics.ptc", ([5], NDArr.mat [[7]]))]
      ".tmp/" =
      .ok (.stats ([5], NDArr.mat [[7]]),
        [(pathJoin ".tmp/" "background_statistics.ptc", ([5], NDArr.mat [[7]]))]) :=
  (C7_cache_memoization (fun u : Unit => u) (fun _ : Unit => [[1]]) [()]
    [(pathJoin ".tmp/" "background_statistics.ptc", ([5], NDArr.mat [[7]]))]
    ".tmp/").1 ([5], NDArr.mat [[7]]) (by simp [lookupStore])

/-- C8: evidence against the claim that get_embeddings on an empty input
sequence returns an empty batch without raising: in the source the empty list
of per-item embedding blocks reaches np.concatenate, which raises
ValueError('need at least one array to concatenate') — for every embedder. -/
theorem C8_get_embeddings_empty_raises (β : Type) (embed : β → RMat) :
    get_embeddings embed ([] : List β) = .error .concatEmpty := rfl

/-- C9: the distance is symmetric in its two Gaussian arguments.  The shape
checks, the squared mean difference and the covariance traces are symmetric
outright; the trace of the selected covmean under swapped arguments is equal
as a hypothesis on the sqrtm oracle (for the true matrix square root,
sigma1·sigma2 and sigma2·sigma1 share their nonzero spectrum, so the traces
of the principal square roots agree — an analytic fact about scipy outside
the embedding). -/
theorem C9_distance_symmetric (sqrtm : RMat → NPMat) (eps : ℚ)
    (mu1 : NDVec) (sigma1 : NDArr) (mu2 : NDVec) (sigma2 : NDArr)
    (cm cm2 : RMat)
    (hmu : (atleast_1d mu1).length = (atleast_1d mu2).length)
    (hs : matShape (atleast_2d sigma1) = matShape (atleast_2d sigma2))
    (h1 : realView (selectedCovmean sqrtm eps (atleast_2d sigma1)
      (atleast_2d sigma2)) = some cm)
    (h2 : realView (selectedCovmean sqrtm eps (atleast_2d sigma2)
      (atleast_2d sigma1)) = some cm2)
    (htr : traceQ cm = traceQ cm2) :
    calculate_frechet_distance sqrtm mu1 sigma1 mu2 sigma2 eps =
      calculate_frechet_distance sqrtm mu2 sigma2 mu1 sigma1 eps := by
  rw [frechet_ok_of_realView sqrtm eps mu1 sigma1 mu2 sigma2 cm hmu hs h1,
      frechet_ok_of_realView sqrtm eps mu2 sigma2 mu1 sigma1 cm2 hmu.symm hs.symm h2]
  simp only [Except.ok.injEq]
  rw [dot_sub_symm (atleast_1d mu1) (atleast_1d mu2), htr]
  ring

/-- Witness for C9 at the end-to-end statistics (the two covariances coincide
there, so the two selected covmeans are equal and the trace hypothesis is
definitional). -/
theorem C9_distance_symmetric_witness :
    calculate_frechet_distance sqrtmC2 (.vec [1, 0]) (.mat [[2, 0], [0, 0]])
      (.vec [1, 2]) (.mat [[2, 0], [0, 0]]) (1/1000000) =
      calculate_frechet_distance sqrtmC2 (.vec [1, 2]) (.mat [[2, 0], [0, 0]])
        (.vec [1, 0]) (.mat [[2, 0], [0, 0]]) (1/1000000) :=
  C9_distance_symmetric sqrtmC2 (1/1000000) (.vec [1, 0]) (.mat [[2, 0], [0, 0]])
    (.vec [1, 2]) (.mat [[2, 0], [0, 0]]) [[2, 0], [0, 0]] [[2, 0], [0, 0]]
    (by decide) (by decide)
    (by norm_num [selectedCovmean, realView, sqrtmC2, matMul, transposeQ, dotQ,
          npFiniteAll, atleast_2d])
    (by norm_num [selectedCovmean, realView, sqrtmC2, matMul, transposeQ, dotQ,
          npFiniteAll, atleast_2d])
    rfl

/-- C10: calculate_frechet_distance promotes before validating: a 0-D mean
becomes a 1-element vector, a 0-D covariance becomes a 1×1 matrix, scalar
statistics (D = 1) pass the shape checks and are compared rather than
rejected, and the checks compare the promoted shapes (a 0-D mean against a
1-element vector and a 0-D covariance against a 1×1 matrix also pass). -/
theorem C10_scalar_promotion (a b c d : ℚ) (sqrtm : RMat → NPMat) (eps : ℚ) :
    atleast_1d (.scalar a) = [a]
    ∧ atleast_2d (.scalar c) = [[c]]
    ∧ isShapeErr (calculate_frechet_distance sqrtm (.scalar a) (.scalar c)
        (.scalar b) (.scalar d) eps) = false
    ∧ isShapeErr (calculate_frechet_distance sqrtm (.scalar a) (.scalar c)
        (.vec [b]) (.mat [[d]]) eps) = false := by
  refine ⟨rfl, rfl, ?_, ?_⟩
  · rw [frechet_eq_finish sqrtm eps (.scalar a) (.scalar c) (.scalar b)
      (.scalar d) rfl rfl]
    exact isShapeErr_finishCovmean _ _ _ _
  · rw [frechet_eq_finish sqrtm eps (.scalar a) (.scalar c) (.vec [b])
      (.mat [[d]]) rfl rfl]
    exact isShapeErr_finishCovmean _ _ _ _

end FADModel
